import Mathlib

/-!
Verification of the ormic ORM library (src/ormic) against its specification.

The embedding mirrors the Python source files:
  * `field.py`    — the `DATATYPES` table, `sql_type`, `python_type`, `Field`;
  * `model.py`    — `Model.__init_subclass__`, `set_values`, `values`,
                    `__eq__`, `_get_value`, `_sql_format`, `to_sql`,
                    `to_sql_fields`;
  * `database.py` — `Database.__init__`, `set_caching`, `caching_on`,
                    `add_to_cache`, `execute`, `get`, and the cache-relevant
                    effect of `fetch` / `fetch_all`;
  * `exceptions.py` — `BadValue`, `FieldDoesNotExist`, `NotConnected`.

Python runtime values that appear in the claims are modelled by the closed
inductive `Value` (strings, ints, `None`, and `Field` objects, which can end
up stored as values through the default-handling quirk of `_get_value`).
Python `dict`s are modelled as insertion-ordered association lists with
dict-assignment semantics (`dictSet`): updating an existing key keeps its
position, a new key is appended.
-/

namespace Ormic

/-- Python value types that can appear as field annotations.  `str`, `int`,
`float`, `datetime` are the ones registered in `DATATYPES`; `bool` and
`bytes` stand for types with no registered storage mapping. -/
inductive PyType where
  | str
  | int
  | float
  | datetime
  | bool
  | bytes
deriving DecidableEq, Repr

/-- Python `type.__name__` for the modelled types. -/
def PyType.name : PyType → String
  | .str => "str"
  | .int => "int"
  | .float => "float"
  | .datetime => "datetime"
  | .bool => "bool"
  | .bytes => "bytes"

/-- Python runtime values relevant to the claims.  `vField` is a `Field`
object appearing as a value (its four attributes `name`, `type`,
`sql_type`, `default`); `vNone` is Python `None`. -/
inductive Value where
  | vStr (s : String)
  | vInt (n : Int)
  | vNone
  | vField (name : String) (type : PyType) (sqlType : String) (default : Value)
deriving DecidableEq, Repr

/-- field.py `DATATYPES`: the fixed `(python, sql)` table; the first storage
name of each tuple is the canonical one, the rest are aliases. -/
def DATATYPES : List (PyType × List String) :=
  [(.str, ["TEXT", "CHAR"]),
   (.int, ["INTEGER", "BIGINT"]),
   (.float, ["FLOAT"]),
   (.datetime, ["DATETIME"])]

/-- field.py `sql_type`: scan `DATATYPES` for an exact value-type match and
return the canonical (first) storage name; raise on an unmapped type. -/
def sql_type (python_type : PyType) : Except String String :=
  match DATATYPES.find? (fun d => d.1 == python_type) with
  | some d => .ok (d.2.headD "")
  | none => .error ("received invalid type " ++ python_type.name)

/-- field.py `python_type`: scan `DATATYPES` for a storage name appearing in
the tuple (canonical or alias) and return the value type; raise if absent. -/
def python_type (sql_type : String) : Except String PyType :=
  match DATATYPES.find? (fun d => d.2.contains sql_type) with
  | some d => .ok d.1
  | none => .error ("received invalid SQL type " ++ sql_type)

/-- field.py `Field`: one column descriptor — `name`, resolved value type,
resolved storage type name, and the declared default. -/
structure FieldV where
  name : String
  type : PyType
  sqlType : String
  default : Value
deriving DecidableEq, Repr

/-- The second argument of `Field.__init__` is `Union[type, str]`. -/
inductive TypeOrName where
  | ty (t : PyType)
  | sqlName (s : String)
deriving DecidableEq, Repr

/-- field.py `Field.__init__`: given a storage-type name, resolve the value
type via `python_type`; given a value type, resolve the storage name via
`sql_type`; either lookup's failure propagates. -/
def Field_init (nm : String) (field_type : TypeOrName) (default : Value) :
    Except String FieldV :=
  match field_type with
  | .sqlName s => do
      let t ← python_type s
      .ok ⟨nm, t, s, default⟩
  | .ty t => do
      let s ← sql_type t
      .ok ⟨nm, t, s, default⟩

/-- The `Field` object viewed as a Python runtime value (the object's
attribute record). -/
def FieldV.toValue (f : FieldV) : Value :=
  .vField f.name f.type f.sqlType f.default

end Ormic

namespace Ormic

/-- Ordered-dict lookup: the value of the first pair whose key matches. -/
def lookup (d : List (String × α)) (k : String) : Option α :=
  (d.find? (fun p => p.1 == k)).map (fun p => p.2)

/-- Python dict assignment `d[k] = v` on an insertion-ordered assoc list
(which, like a dict, never holds a key twice): an existing key keeps its
position and gets the new value, a fresh key is appended at the end. -/
def dictSet : List (String × α) → String → α → List (String × α)
  | [], k, v => [(k, v)]
  | p :: t, k, v => if p.1 = k then (k, v) :: t else p :: dictSet t k v

end Ormic

namespace Ormic

/-- A declared model class: `__tablename__`, the class attribute dict
(the declared defaults, keyed by attribute name; a key is present exactly
when the class body assigned a default), and its `_fields` mapping as seen
by that class's methods. -/
structure ModelClass where
  tablename : String
  classAttrs : List (String × Value)
  fields : List (String × FieldV)
deriving DecidableEq, Repr

/-- A model instance: its class and its instance `__dict__` (the attributes
stored by `setattr`, in insertion order). -/
structure Instance where
  cls : ModelClass
  attrs : List (String × Value)
deriving DecidableEq, Repr

/-- Python `isinstance(value, t)` for the modelled values and types.
`Field` objects and `None` are instances of none of the modelled types. -/
def isinst (v : Value) (t : PyType) : Bool :=
  match v, t with
  | .vStr _, .str => true
  | .vInt _, .int => true
  | _, _ => false

/-- Python `getattr(obj, name, fallback)`: the instance `__dict__` first,
then the class attributes, then the fallback. -/
def Instance.getattrD (self : Instance) (name : String) (fallback : Value) :
    Value :=
  match lookup self.attrs name with
  | some v => v
  | none =>
    match lookup self.cls.classAttrs name with
    | some v => v
    | none => fallback

/-- Python two-argument `getattr(obj, name)` as an `Option` (instance
`__dict__`, then class attributes; `none` models `AttributeError`). -/
def Instance.getattr (self : Instance) (name : String) : Option Value :=
  match lookup self.attrs name with
  | some v => some v
  | none => lookup self.cls.classAttrs name

/-- model.py `Model._get_value`: `getattr(self, field.name, field.default)`. -/
def _get_value (self : Instance) (field : FieldV) : Value :=
  self.getattrD field.name field.default

/-- model.py `Model.values`: the tuple of `_get_value` over `self.fields`
(the values of the `_fields` mapping, in order). -/
def Instance.values (self : Instance) : List Value :=
  self.cls.fields.map (fun p => _get_value self p.2)

/-- model.py `Model.__eq__`: `isinstance(other, type(self)) and
self.values == other.values`.  Classes are compared structurally here
(distinct declared classes in the claims differ structurally; the subclass
case of `isinstance` does not arise in any claim). -/
def modelEq (self other : Instance) : Bool :=
  self.cls == other.cls && self.values == other.values

/-- Python `str(value)` for the modelled values.  For a `Field` object the
interpreter prints `<ormic.field.Field object at 0x...>`; the
address-dependent part is elided (no claim depends on that text). -/
def pyStr : Value → String
  | .vStr s => s
  | .vInt n => toString n
  | .vNone => "None"
  | .vField _ _ _ _ => "<ormic.field.Field object>"

/-- model.py `Model._sql_format`: `f"'{value}'"` for `str` values, plain
`str(value)` otherwise. -/
def _sql_format (value : Value) : String :=
  if let .vStr s := value then "'" ++ s ++ "'" else pyStr value

/-- model.py `Model.to_sql`: `f"({', '.join(...)}"` — note the f-string
opens a parenthesis but never closes it. -/
def Instance.to_sql (self : Instance) : String :=
  "(" ++ String.intercalate ", "
    (self.cls.fields.map (fun p => _sql_format (_get_value self p.2)))

/-- The equality clauses `f"{field.name} = {self._sql_format(...)}"` of
model.py `Model.to_sql_fields`, before joining. -/
def Instance.sqlFieldClauses (self : Instance) : List String :=
  self.cls.fields.map
    (fun p => p.2.name ++ " = " ++ _sql_format (_get_value self p.2))

/-- model.py `Model.to_sql_fields`: the equality clauses joined by
`joiner` (default `" AND "`). -/
def Instance.to_sql_fields (self : Instance) (joiner : String) : String :=
  String.intercalate joiner self.sqlFieldClauses

/-- model.py exception kinds raised by the modelled operations, with the
constructor arguments of exceptions.py. -/
inductive OrmicError where
  | badValue (field_name : String) (expected_type : String)
  | fieldDoesNotExist (field_name : String)
  | notConnected
deriving DecidableEq, Repr

/-- The message text each exceptions.py class passes to `OrmicException`. -/
def OrmicError.text : OrmicError → String
  | .badValue field_name expected_type =>
      "received wrong value type for field " ++ field_name ++ ", expected "
        ++ expected_type
  | .fieldDoesNotExist field_name => field_name ++ " is not an existent field"
  | .notConnected => "This database handler isn't connected to a database."

/-- model.py `Model.set_values`: process the keyword arguments in order;
an unknown name raises `FieldDoesNotExist(name)`, a value failing
`isinstance(value, field.type)` raises `BadValue(field.name,
field.type.__name__)`, and a matching value is stored by `setattr`
unchanged. -/
def set_values (fields : List (String × FieldV)) (attrs : List (String × Value))
    (new_values : List (String × Value)) :
    Except OrmicError (List (String × Value)) :=
  match new_values with
  | [] => .ok attrs
  | (name, value) :: rest =>
    match lookup fields name with
    | some field =>
      if isinst value field.type then
        set_values fields (dictSet attrs name value) rest
      else .error (.badValue field.name field.type.name)
    | none => .error (.fieldDoesNotExist name)

/-- model.py `Model.__init__`: `set_values` starting from an empty instance
`__dict__`. -/
def Model_init (cls : ModelClass) (values : List (String × Value)) :
    Except OrmicError Instance :=
  (set_values cls.fields [] values).map (fun a => ⟨cls, a⟩)

/-- model.py `Model.__init_subclass__` acting on the `_fields` dict it
writes into: for each annotated attribute in order, take the class
attribute as default (`None` when absent), reuse it when it is already a
`Field` and otherwise build `Field(name, type, default)`, then assign
`cls._fields[name] = field`.  Because `cls` never defines its own
`_fields`, that assignment mutates the single dict inherited from `Model`:
`shared` is that dict's state before the declaration and the result is its
state after.  `Field` construction can raise (unmapped annotation type),
which propagates. -/
def initSubclass (shared : List (String × FieldV))
    (annotations : List (String × PyType))
    (classAttrs : List (String × Value)) :
    Except String (List (String × FieldV)) :=
  match annotations with
  | [] => .ok shared
  | (name, ty) :: rest => do
    let default := (lookup classAttrs name).getD .vNone
    let field ←
      match default with
      | .vField fn ft fs fd => Except.ok (FieldV.mk fn ft fs fd)
      | d => Field_init name (.ty ty) d
    initSubclass (dictSet shared name field) rest classAttrs

/-- A result row from the storage engine, positionally indexable. -/
def Row := List Value

/-- database.py `Database` state: registered models, whether
`self.connection` is set (it is `Optional[Connection]`, `None` until
`connect`), the per-model `cache` dict, the two `cache_config` knobs
(`on`, initially `False`; `limit`, initially `None`), and the trace of
statement texts executed on the connection. -/
structure DBState where
  models : List ModelClass
  connection : Bool
  cache : List (ModelClass × List Instance)
  cacheOn : Bool
  cacheLimit : Option Int
  trace : List String
deriving DecidableEq, Repr

/-- database.py `Database.__init__(*models, connection=None)`:
the given models registered, `cache = {}`,
`cache_config = {"on": False, "limit": None}`. -/
def DBState.init (models : List ModelClass) (connected : Bool) : DBState :=
  ⟨models, connected, [], false, none, []⟩

/-- database.py `Database.set_caching(on=..., limit=...)`. -/
def DBState.set_caching (s : DBState) (flag : Bool) (limit : Int) : DBState :=
  { s with cacheOn := flag, cacheLimit := some limit }

/-- database.py `Database.add_model`. -/
def DBState.add_model (s : DBState) (m : ModelClass) : DBState :=
  { s with models := s.models ++ [m] }

/-- database.py `Database.caching_on(model)`:
`self.cache_config["on"] and model in self.cache`. -/
def DBState.caching_on (s : DBState) (model : ModelClass) : Bool :=
  s.cacheOn && s.cache.any (fun p => p.1 == model)

/-- The bucket `self.cache[model]` (empty when the key is absent; every
access in database.py is guarded by `caching_on`, which requires the key). -/
def DBState.bucket (s : DBState) (model : ModelClass) : List Instance :=
  match (s.cache.find? (fun p => p.1 == model)).map (fun p => p.2) with
  | some b => b
  | none => []

/-- Dict assignment `self.cache[model] = bucket` (same semantics as
`dictSet`, keyed by model class). -/
def cacheSet (c : List (ModelClass × List Instance)) (m : ModelClass)
    (b : List Instance) : List (ModelClass × List Instance) :=
  if c.any (fun p => p.1 == m) then
    c.map (fun p => if p.1 == m then (m, b) else p)
  else c ++ [(m, b)]

/-- database.py `Database.add_to_cache(model, *objects)` acting on the
model's bucket.  The source reads
`if count := (self.cache_config["limit"] - len(self.cache[model])) > 0:`
— the walrus operator binds the whole comparison, so `count` is the
*boolean* `(limit - len(bucket)) > 0`, and the slice `objects[:count]`
uses `True` as `1` / `False` as `0`.  Membership (`object not in ...`)
uses `Model.__eq__`. -/
def add_to_cache (limit : Int) (bucket : List Instance)
    (objects : List Instance) : List Instance :=
  let count : Bool := limit - bucket.length > 0
  if count then
    (objects.take 1).foldl
      (fun b object => if b.any (fun o => modelEq object o) then b
                       else b ++ [object]) bucket
  else bucket

/-- The cache effect of database.py `Database.fetch` / `Database.fetch_all`
after building `objects` from the query results:
`if self.caching_on(model): self.add_to_cache(model, *objects)`.
When the branch is taken the code reads `self.cache_config["limit"]`;
`getD 0` totalises the `None` case (where Python would raise `TypeError`
inside `add_to_cache` and leave the bucket unchanged — and which is in any
case unreachable together with `caching_on`, as proved below). -/
def DBState.fetchCacheStep (s : DBState) (model : ModelClass)
    (objects : List Instance) : DBState :=
  if s.caching_on model then
    let newBucket := add_to_cache (s.cacheLimit.getD 0) (s.bucket model) objects
    { s with cache := cacheSet s.cache model newBucket }
  else s

/-- The filter test of database.py `Database.get`:
`all(getattr(object, key, value) == value for key, value in values.items())`. -/
def matchesFilters (object : Instance) (values : List (String × Value)) :
    Bool :=
  values.all (fun kv => object.getattrD kv.1 kv.2 == kv.2)

/-- database.py `Database.get(model, **values)`: under `caching_on`, scan
`self.cache[model]` and return the first object passing `matchesFilters`;
otherwise (or when the scan finds nothing) the function falls off the end
and returns `None`. -/
def DBState.get (s : DBState) (model : ModelClass)
    (values : List (String × Value)) : Option Instance :=
  if s.caching_on model then
    (s.bucket model).find? (fun object => matchesFilters object values)
  else none

/-- What database.py `Database.execute` hands back when it fetches:
nothing, `cursor.fetchall()`, or `cursor.fetchone()`. -/
inductive ExecResult where
  | noFetch
  | many (rows : List Row)
  | one (row : Option Row)

/-- database.py `Database.execute(query, commit=..., fetch=...,
fetch_one=...)`: raise `NotConnected` when `self.connection is None`,
before touching the connection; otherwise run the statement (appended to
the trace), commit if asked, and fetch per the flags.  `engine` models the
external storage engine's response to a statement. -/
def executeDb (engine : String → List Row) (s : DBState) (query : String)
    (commit fetch fetch_one : Bool) : Except OrmicError ExecResult × DBState :=
  if s.connection then
    let s' := { s with trace := s.trace ++ [query] }
    let res :=
      if fetch || fetch_one then
        if fetch then ExecResult.many (engine query)
        else ExecResult.one (engine query).head?
      else ExecResult.noFetch
    (.ok res, s')
  else (.error .notConnected, s)

/-- The states a `Database` can reach through its public operations,
starting from `__init__`.  `io_step` covers the operations that only
execute statements (`connect`/`create_tables`, `execute`, `save`,
`delete`, `update`): they may set the connection and extend the trace but
never touch `models`, `cache` or `cache_config`.  `fetch_step` covers the
cache effect of `fetch` (one object) and `fetch_all` (a list);
`get` is a pure read and `get_or_fetch` composes `get` with `fetch`, so
neither adds a state shape of its own. -/
inductive Reachable : DBState → Prop where
  | init (models : List ModelClass) (connected : Bool) :
      Reachable (DBState.init models connected)
  | set_caching {s} (flag : Bool) (limit : Int) :
      Reachable s → Reachable (s.set_caching flag limit)
  | add_model {s} (m : ModelClass) :
      Reachable s → Reachable (s.add_model m)
  | io_step {s} (connected : Bool) (trace : List String) :
      Reachable s → Reachable { s with connection := connected, trace := trace }
  | fetch_step {s} (model : ModelClass) (objects : List Instance) :
      Reachable s → Reachable (s.fetchCacheStep model objects)

/-- C5: for every value type registered in `DATATYPES`, mapping it to its
canonical storage name and back yields the same value type; for every
canonical storage name, mapping it to its value type and back yields the
same name; each alias resolves to exactly one value type; unmapped inputs
fail with an explicit error in both directions. -/
theorem typemap_roundtrip :
    (sql_type .str = .ok "TEXT" ∧ python_type "TEXT" = .ok .str) ∧
    (sql_type .int = .ok "INTEGER" ∧ python_type "INTEGER" = .ok .int) ∧
    (sql_type .float = .ok "FLOAT" ∧ python_type "FLOAT" = .ok .float) ∧
    (sql_type .datetime = .ok "DATETIME" ∧ python_type "DATETIME" = .ok .datetime) ∧
    (python_type "CHAR" = .ok .str ∧ python_type "BIGINT" = .ok .int) ∧
    (sql_type .bool = .error "received invalid type bool" ∧
     sql_type .bytes = .error "received invalid type bytes") ∧
    (python_type "BLOB" = .error "received invalid SQL type BLOB") :=
  ⟨⟨rfl, rfl⟩, ⟨rfl, rfl⟩, ⟨rfl, rfl⟩, ⟨rfl, rfl⟩, ⟨rfl, rfl⟩, ⟨rfl, rfl⟩, rfl⟩

/-- A model class with a single `id: int` field and no declared defaults,
as produced by declaring `class M(Model): id: int`. -/
def cacheModel : ModelClass :=
  ⟨"M", [], [("id", ⟨"id", .int, "INTEGER", .vNone⟩)]⟩

/-- An instance of `cacheModel` with the given id. -/
def cacheObj (n : Int) : Instance :=
  ⟨cacheModel, [("id", .vInt n)]⟩

/-- C1: refuted as stated — the walrus operator in `add_to_cache` binds
`count` to the boolean `(limit - len(bucket)) > 0`, not to the remaining
capacity, so `objects[:count]` slices at most one element.  Admitting
three distinct instances into an empty bucket with `limit = 2` leaves only
the first instance, where the claim requires the first two. -/
theorem add_to_cache_walrus_bug :
    add_to_cache 2 [] [cacheObj 1, cacheObj 2, cacheObj 3] = [cacheObj 1] ∧
    (add_to_cache 2 [] [cacheObj 1, cacheObj 2, cacheObj 3]).length = 1 ∧
    add_to_cache 2 [] [cacheObj 1, cacheObj 2, cacheObj 3]
      ≠ [cacheObj 1, cacheObj 2] := by
  refine ⟨rfl, rfl, ?_⟩
  decide

/-- The `Field` synthesized for an annotation `x: int` with no default. -/
def fieldX : FieldV := ⟨"x", .int, "INTEGER", .vNone⟩

/-- The `Field` synthesized for an annotation `y: str` with no default. -/
def fieldY : FieldV := ⟨"y", .str, "TEXT", .vNone⟩

/-- C2: refuted as stated — `cls._fields[name] = field` in
`__init_subclass__` writes into the one `_fields` dict inherited from
`Model`, so declaring `class A(Model): x: int` and then
`class B(Model): y: str` leaves the shared dict — which is what
`A._fields` resolves to — holding both `x` and `y`: A's field mapping is
not independent of B's declaration and holds more than A's declared
fields. -/
theorem init_subclass_shared_fields_bug :
    initSubclass [] [("x", .int)] [] = .ok [("x", fieldX)] ∧
    initSubclass [("x", fieldX)] [("y", .str)] []
      = .ok [("x", fieldX), ("y", fieldY)] ∧
    lookup [("x", fieldX), ("y", fieldY)] "y" = some fieldY ∧
    [("x", fieldX), ("y", fieldY)] ≠ [("x", fieldX)] := by
  refine ⟨rfl, rfl, rfl, ?_⟩
  decide

/-- The model class declared by `id: int; name: str` with no defaults, the
schema of the spec's end-to-end scenario. -/
def idNameModel : ModelClass :=
  ⟨"T", [],
   [("id", ⟨"id", .int, "INTEGER", .vNone⟩),
    ("name", ⟨"name", .str, "TEXT", .vNone⟩)]⟩

/-- The instance `{id: 1, name: "a"}` of `idNameModel`. -/
def idNameInstance : Instance :=
  ⟨idNameModel, [("id", .vInt 1), ("name", .vStr "a")]⟩

/-- C4: refuted as stated — `to_sql` renders the comma-separated literals
after an opening parenthesis (text single-quoted, other values bare) but
its f-string never closes the parenthesis, so the instance
`{id: 1, name: "a"}` renders as `"(1, 'a'"`, not `"(1, 'a')"` as the
claim (and `to_sql`'s own docstring example) states; `Database.save`
papers over this by appending `")"` itself. -/
theorem to_sql_missing_close_paren :
    Model_init idNameModel [("id", .vInt 1), ("name", .vStr "a")]
      = .ok idNameInstance ∧
    idNameInstance.to_sql = "(1, 'a'" ∧
    idNameInstance.to_sql ≠ "(1, 'a')" := by
  refine ⟨rfl, rfl, ?_⟩
  decide

/-- In every reachable database state the cache dict is the empty dict it
was initialised to: no public operation ever writes a key into it. -/
lemma reachable_cache_empty {s : DBState} (h : Reachable s) : s.cache = [] := by
  induction h with
  | init models connected => rfl
  | set_caching flag limit _ ih => exact ih
  | add_model m _ ih => exact ih
  | io_step connected trace _ ih => exact ih
  | fetch_step model objects _ ih =>
    unfold DBState.fetchCacheStep
    simp [DBState.caching_on, ih]

/-- C3: in every state reachable through the public operations of a
`Database`, the per-model cache mapping has no bucket for any model, so
`caching_on` is false for every model (even after `set_caching(on=True,
limit=N)`), `get` always returns `None`, and the cache-admission step of
`fetch` / `fetch_all` never changes the state. -/
theorem cache_stays_unpopulated (s : DBState) (h : Reachable s) :
    s.cache = [] ∧
    (∀ m, s.caching_on m = false) ∧
    (∀ m values, s.get m values = none) ∧
    (∀ m objects, s.fetchCacheStep m objects = s) := by
  have hc : s.cache = [] := reachable_cache_empty h
  have hon : ∀ m, s.caching_on m = false := by
    intro m
    simp [DBState.caching_on, hc]
  refine ⟨hc, hon, ?_, ?_⟩
  · intro m values
    simp [DBState.get, hon m]
  · intro m objects
    unfold DBState.fetchCacheStep
    simp [hon m]

/-- Witness for C3: the concrete run `Database(M)`,
`set_caching(on=True, limit=5)`, then a `fetch` of one object, still has an
empty cache, caching off for `M`, and a `None` `get`. -/
theorem cache_stays_unpopulated_witness :
    (((DBState.init [cacheModel] false).set_caching true 5).fetchCacheStep
        cacheModel [cacheObj 1]).cache = [] ∧
    (((DBState.init [cacheModel] false).set_caching true 5).fetchCacheStep
        cacheModel [cacheObj 1]).caching_on cacheModel = false ∧
    (((DBState.init [cacheModel] false).set_caching true 5).fetchCacheStep
        cacheModel [cacheObj 1]).get cacheModel [("id", .vInt 1)] = none :=
  have h := cache_stays_unpopulated _
    (Reachable.fetch_step cacheModel [cacheObj 1]
      (Reachable.set_caching true 5 (Reachable.init [cacheModel] false)))
  ⟨h.1, h.2.1 cacheModel, h.2.2.1 cacheModel [("id", .vInt 1)]⟩

/-- C8: `execute` on a database whose connection is unset raises
`NotConnected` whatever the `commit` / `fetch` / `fetch_one` arguments are,
before any statement reaches the engine, and returns with the state (trace
included) unchanged. -/
theorem execute_not_connected (engine : String → List Row) (s : DBState)
    (query : String) (commit fetch fetch_one : Bool)
    (h : s.connection = false) :
    executeDb engine s query commit fetch fetch_one
      = (.error .notConnected, s) := by
  simp [executeDb, h]

/-- Witness for C8: a freshly initialised, unconnected database. -/
theorem execute_not_connected_witness :
    (DBState.init [] false).connection = false ∧
    executeDb (fun _ => []) (DBState.init [] false) "SELECT * FROM T"
        true true false
      = (.error .notConnected, DBState.init [] false) :=
  ⟨rfl, execute_not_connected (fun _ => []) (DBState.init [] false)
    "SELECT * FROM T" true true false rfl⟩

/-- Dict assignment followed by lookup of the same key returns exactly the
assigned value. -/
lemma lookup_dictSet (d : List (String × α)) (k : String) (v : α) :
    lookup (dictSet d k v) k = some v := by
  induction d with
  | nil => simp [dictSet, lookup]
  | cons p t ih =>
    by_cases hp : p.1 = k
    · simp [dictSet, lookup, hp]
    · simp [dictSet, lookup, hp] at ih ⊢
      exact ih

/-- C6: `set_values` (and hence instance construction, which is
`set_values` on an empty `__dict__`) rejects an unknown field name with
`FieldDoesNotExist` naming that field, rejects a value that is not an
instance of the field's declared type with `BadValue` naming the field and
the expected type's name, and stores a matching value unchanged via
`setattr`. -/
theorem set_values_validation (fields : List (String × FieldV))
    (attrs : List (String × Value)) (name : String) (value : Value)
    (rest : List (String × Value)) :
    (lookup fields name = none →
      set_values fields attrs ((name, value) :: rest)
        = .error (.fieldDoesNotExist name)) ∧
    (∀ field, lookup fields name = some field →
      isinst value field.type = false →
      set_values fields attrs ((name, value) :: rest)
        = .error (.badValue field.name field.type.name)) ∧
    (∀ field, lookup fields name = some field →
      isinst value field.type = true →
      set_values fields attrs ((name, value) :: rest)
          = set_values fields (dictSet attrs name value) rest ∧
      lookup (dictSet attrs name value) name = some value) := by
  refine ⟨?_, ?_, ?_⟩
  · intro hnone
    simp [set_values, hnone]
  · intro field hsome hbad
    simp [set_values, hsome, hbad]
  · intro field hsome hok
    exact ⟨by simp [set_values, hsome, hok], lookup_dictSet attrs name value⟩

/-- Witness for C6 on the `id: int, name: str` schema: an unknown keyword
raises `FieldDoesNotExist`, a `str` value for the `int` field `id` raises
`BadValue("id", "int")`, and `id = 7` is stored as exactly `7`. -/
theorem set_values_validation_witness :
    set_values idNameModel.fields [] [("zz", .vInt 1)]
      = .error (.fieldDoesNotExist "zz") ∧
    set_values idNameModel.fields [] [("id", .vStr "x")]
      = .error (.badValue "id" "int") ∧
    (set_values idNameModel.fields [] [("id", .vInt 7)]
        = set_values idNameModel.fields (dictSet [] "id" (Value.vInt 7)) [] ∧
      lookup (dictSet [] "id" (Value.vInt 7)) "id" = some (Value.vInt 7)) :=
  ⟨(set_values_validation idNameModel.fields [] "zz" (Value.vInt 1) []).1 rfl,
   (set_values_validation idNameModel.fields [] "id" (Value.vStr "x") []).2.1
     ⟨"id", .int, "INTEGER", .vNone⟩ rfl rfl,
   (set_values_validation idNameModel.fields [] "id" (Value.vInt 7) []).2.2
     ⟨"id", .int, "INTEGER", .vNone⟩ rfl rfl⟩

/-- C7: two instances of the same schema are equal under `Model.__eq__`
exactly when their ordered value tuples (current value, or field default
where unset, in field-declaration order) coincide; a difference at any one
position makes them unequal. -/
theorem model_eq_iff_values (cls : ModelClass) (a b : Instance)
    (ha : a.cls = cls) (hb : b.cls = cls) :
    (modelEq a b = true ↔ a.values = b.values) ∧
    (a.values ≠ b.values → modelEq a b = false) ∧
    (∀ i, i < a.values.length → i < b.values.length →
      a.values.getD i .vNone ≠ b.values.getD i .vNone → modelEq a b = false) := by
  have hcls : a.cls = b.cls := by rw [ha, hb]
  have h1 : modelEq a b = true ↔ a.values = b.values := by
    simp [modelEq, hcls]
  have h2 : a.values ≠ b.values → modelEq a b = false := by
    intro hne
    cases hmq : modelEq a b with
    | false => rfl
    | true => exact absurd (h1.mp hmq) hne
  refine ⟨h1, h2, ?_⟩
  intro i _ _ hgt
  apply h2
  intro heq
  exact hgt (by rw [heq])

/-- Witness for C7: `{id: 1, name: "a"}` equals a second instance with the
same values, and differs from one whose `id` is `2`. -/
theorem model_eq_iff_values_witness :
    modelEq idNameInstance ⟨idNameModel, [("id", .vInt 1), ("name", .vStr "a")]⟩
      = true ∧
    modelEq idNameInstance ⟨idNameModel, [("id", .vInt 2), ("name", .vStr "a")]⟩
      = false :=
  ⟨(model_eq_iff_values idNameModel idNameInstance
      ⟨idNameModel, [("id", .vInt 1), ("name", .vStr "a")]⟩ rfl rfl).1.mpr rfl,
   (model_eq_iff_values idNameModel idNameInstance
      ⟨idNameModel, [("id", .vInt 2), ("name", .vStr "a")]⟩ rfl rfl).2.1
     (by decide)⟩

/-- A successful `find?` returns an element satisfying the predicate, and
everything before it in the list fails the predicate. -/
lemma find?_first_split {p : α → Bool} {l : List α} {o : α}
    (h : l.find? p = some o) :
    p o = true ∧
    ∃ l1 l2, l = l1 ++ o :: l2 ∧ ∀ x ∈ l1, p x = false := by
  induction l with
  | nil => simp at h
  | cons a t ih =>
    by_cases ha : p a
    · rw [List.find?_cons_of_pos _ ha] at h
      cases h
      exact ⟨ha, [], t, rfl, by simp⟩
    · rw [List.find?_cons_of_neg _ (by simpa using ha)] at h
      obtain ⟨hp, l1, l2, hl, hall⟩ := ih h
      refine ⟨hp, a :: l1, l2, by rw [hl]; rfl, ?_⟩
      intro x hx
      rcases List.mem_cons.mp hx with rfl | hx
      · simpa using ha
      · exact hall x hx

/-- C9: `Database.get` returns `None` unless caching is on for the model;
under caching it linearly scans the model's bucket and returns the first
instance passing every filter, where the filter test compares
`getattr(object, key, value)` with `value` — so an instance lacking the
attribute entirely is treated as matching that filter — and returns `None`
when no instance in the bucket matches. -/
theorem get_scan_semantics (s : DBState) (m : ModelClass)
    (values : List (String × Value)) :
    (s.caching_on m = false → s.get m values = none) ∧
    (∀ o, s.get m values = some o →
      s.caching_on m = true ∧ matchesFilters o values = true ∧
      ∃ l1 l2, s.bucket m = l1 ++ o :: l2 ∧
        ∀ x ∈ l1, matchesFilters x values = false) ∧
    (s.caching_on m = true →
      (∀ x ∈ s.bucket m, matchesFilters x values = false) →
      s.get m values = none) ∧
    (∀ (o : Instance) (k : String) (v : Value) (rest : List (String × Value)),
      o.getattr k = none →
      matchesFilters o ((k, v) :: rest) = matchesFilters o rest) := by
  refine ⟨?_, ?_, ?_, ?_⟩
  · intro hoff
    simp [DBState.get, hoff]
  · intro o ho
    by_cases hon : s.caching_on m
    · rw [DBState.get, if_pos hon] at ho
      obtain ⟨hp, l1, l2, hl, hall⟩ := find?_first_split ho
      exact ⟨hon, hp, l1, l2, hl, hall⟩
    · rw [DBState.get, if_neg hon] at ho
      cases ho
  · intro hon hall
    rw [DBState.get, if_pos hon]
    exact List.find?_eq_none.mpr (fun x hx => by simp [hall x hx])
  · intro o k v rest hmiss
    have hd : o.getattrD k v = v := by
      rw [Instance.getattr] at hmiss
      rw [Instance.getattrD]
      rcases h1 : lookup o.attrs k with _ | w
      · rw [h1] at hmiss
        simp only [h1]
        rcases h2 : lookup o.cls.classAttrs k with _ | w'
        · rfl
        · rw [h2] at hmiss; cases hmiss
      · rw [h1] at hmiss; cases hmiss
    simp [matchesFilters, hd]

/-- A database state handed a cache bucket for `cacheModel` directly
(no sequence of public operations produces one — see the C3 theorem — but
`get`'s scan is defined on any state). -/
def cachedState : DBState :=
  ⟨[cacheModel], true, [(cacheModel, [cacheObj 1, cacheObj 2])], true,
   some 5, []⟩

/-- Witness for C9: on a state with a two-element bucket, filtering on
`id = 2` skips `cacheObj 1` and returns `cacheObj 2`; a filter on an
attribute no instance has matches the very first instance; with caching
off for the model, `get` is `None`. -/
theorem get_scan_semantics_witness :
    (cachedState.get cacheModel [("id", .vInt 2)] = some (cacheObj 2) ∧
      cachedState.caching_on cacheModel = true ∧
      matchesFilters (cacheObj 2) [("id", .vInt 2)] = true ∧
      ∃ l1 l2, cachedState.bucket cacheModel = l1 ++ cacheObj 2 :: l2 ∧
        ∀ x ∈ l1, matchesFilters x [("id", .vInt 2)] = false) ∧
    cachedState.get cacheModel [("nick", .vStr "z")] = some (cacheObj 1) ∧
    (DBState.init [cacheModel] true).get cacheModel [("id", .vInt 2)]
      = none :=
  ⟨⟨rfl, (get_scan_semantics cachedState cacheModel [("id", .vInt 2)]).2.1
      (cacheObj 2) rfl⟩,
   rfl,
   (get_scan_semantics (DBState.init [cacheModel] true) cacheModel
      [("id", .vInt 2)]).1 rfl⟩

/-- C10: when a field was declared by assigning a pre-built `Field` object
as the attribute's default, `__init_subclass__` stores that `Field` itself
in `_fields` and the class attribute remains the `Field` object, so for an
instance that never set the attribute, `_get_value` — which is
`getattr(self, field.name, field.default)` — finds the class attribute and
returns the `Field` object itself, not the `Field`'s stored `default`;
that object is what appears in the ordered values tuple and in the
rendered equality clauses.  (`f.name = n` states that the pre-built
`Field` was declared under its own name, the ordinary pattern.) -/
theorem prebuilt_field_reported_as_value
    (cls : ModelClass) (attrs : List (String × Value)) (f : FieldV)
    (n : String)
    (hf : lookup cls.fields n = some f)
    (hname : f.name = n)
    (hattr : lookup cls.classAttrs n = some f.toValue)
    (hunset : lookup attrs n = none) :
    _get_value ⟨cls, attrs⟩ f = f.toValue ∧
    f.toValue ∈ (Instance.values ⟨cls, attrs⟩) ∧
    (f.name ++ " = " ++ _sql_format f.toValue)
      ∈ (Instance.sqlFieldClauses ⟨cls, attrs⟩) ∧
    (f.toValue ≠ f.default → _get_value ⟨cls, attrs⟩ f ≠ f.default) ∧
    (∀ (shared : List (String × FieldV)) (ty : PyType),
      initSubclass shared [(n, ty)] [(n, f.toValue)]
        = .ok (dictSet shared n f)) := by
  have hget : _get_value ⟨cls, attrs⟩ f = f.toValue := by
    rw [_get_value, Instance.getattrD]
    simp only [hname, hunset, hattr]
  have hmem : (n, f) ∈ cls.fields := by
    rw [lookup] at hf
    rcases hp : cls.fields.find? (fun p => p.1 == n) with _ | p
    · rw [hp] at hf; cases hf
    · rw [hp] at hf
      have hkey : p.1 = n := by
        have := List.find?_some hp
        simpa using this
      have hval : p.2 = f := by simpa using hf
      have : p = (n, f) := by
        cases p
        simp_all
      exact this ▸ List.mem_of_find?_eq_some hp
  refine ⟨hget, ?_, ?_, ?_, ?_⟩
  · rw [Instance.values]
    exact List.mem_map.mpr ⟨(n, f), hmem, hget⟩
  · rw [Instance.sqlFieldClauses]
    exact List.mem_map.mpr ⟨(n, f), hmem, by rw [hget]⟩
  · intro hne
    rw [hget]
    exact hne
  · intro shared ty
    simp [initSubclass, lookup, FieldV.toValue]
    rfl

/-- The pre-built `Field("nick", str, "anon")` assigned as the default of
attribute `nick`. -/
def nickField : FieldV := ⟨"nick", .str, "TEXT", .vStr "anon"⟩

/-- The model class declared as `nick: str = Field("nick", str, "anon")`. -/
def nickModel : ModelClass :=
  ⟨"U", [("nick", nickField.toValue)], [("nick", nickField)]⟩

/-- Witness for C10: a fresh, never-assigned instance of `nickModel`
reports the `Field` object — not `"anon"` — as the value of `nick`. -/
theorem prebuilt_field_reported_as_value_witness :
    _get_value ⟨nickModel, []⟩ nickField = nickField.toValue ∧
    nickField.toValue ∈ (Instance.values ⟨nickModel, []⟩) ∧
    _get_value ⟨nickModel, []⟩ nickField ≠ Value.vStr "anon" :=
  have h := prebuilt_field_reported_as_value nickModel [] nickField "nick"
    rfl rfl rfl rfl
  ⟨h.1, h.2.1, h.2.2.2.1 (by decide)⟩

end Ormic
